import Mathlib

/-!
Verification of the scroll-to-camera choreography engine of the
Space-Travel-Experience repository (src/src/App.jsx), shallowly embedded
over exact rational arithmetic.

The embedding follows the source:
* `planets` is the static catalog built in `Scene` (App.jsx lines 161-257).
* `stops` mirrors the `stops` array (lines 275-279): one camera keyframe per
  catalog entry, with look target `[orbitRadius, yOffset, 0]` and camera
  position `[orbitRadius+3, yOffset+2, idx < 2 ? 10-idx*4 : -6]`.
* `timelinePose` is the GSAP timeline built in lines 263-295: one
  position tween per stop, tween `i` placed at timeline time `i` with
  duration 1 (so the timeline has N segments of equal length, total
  duration N), easing `power2.inOut` (cubic in-out), scrubbed by scroll
  progress in [0,1]; a parallel zero-target tween calls
  `camera.lookAt(step.look)` on every update, so the look-at target is the
  active segment target, held constant over the segment.
* `currentAngle` is the per-frame orbit advance (lines 303-308):
  `group.rotation.y += orbitSpeed * delta` guarded by `orbitSpeed` truthy,
  starting from the initial group rotation `startAngle`.
* `meshSpin` is the per-frame self-rotation of `Planet` (lines 109-113):
  `rotation.y += 0.0014` on every rendered frame.
-/

/-- A 3-component vector with exact rational coordinates. -/
structure Vec3 where
  x : ℚ
  y : ℚ
  z : ℚ
deriving DecidableEq

/-- A camera pose: position and look-at target, as produced each frame. -/
structure Pose where
  position : Vec3
  lookAt : Vec3
deriving DecidableEq

/-- GSAP-style tween interpolation of one coordinate: start + t·(end−start). -/
def lerpQ (a b t : ℚ) : ℚ := a + t * (b - a)

/-- Componentwise tween interpolation of a vector. -/
def lerpV (a b : Vec3) (t : ℚ) : Vec3 :=
  ⟨lerpQ a.x b.x t, lerpQ a.y b.y t, lerpQ a.z b.z t⟩

/-- The `power2.inOut` easing of GSAP (cubic in-out), the timeline default
set in App.jsx line 264. -/
def easeInOut (u : ℚ) : ℚ :=
  if u < 1/2 then 4 * u ^ 3 else 1 - 4 * (1 - u) ^ 3

/-- A celestial body of the catalog, with the fields the choreography reads. -/
structure Body where
  name : String
  orbitRadius : ℚ
  startAngle : ℚ
  orbitSpeed : ℚ
  tilt : ℚ
  yOffset : ℚ
  scale : ℚ
  textureUrl : String
  emissive : Option String := none
  hasRing : Bool := false
deriving DecidableEq

/-- Catalog entry 0 of `Scene` (App.jsx lines 163-173). -/
def sun : Body :=
  { name := "sun", orbitRadius := 0, startAngle := 0, orbitSpeed := 0,
    tilt := 0, yOffset := 0, scale := 2.8,
    textureUrl := "/textures/sun.jpg", emissive := some "#ff9a00" }

/-- Catalog entry 1. -/
def mercury : Body :=
  { name := "mercury", orbitRadius := 8, startAngle := 0.4, orbitSpeed := 0.9,
    tilt := 0.01, yOffset := 0.2, scale := 0.45,
    textureUrl := "/textures/mercury.jpg" }

/-- Catalog entry 2. -/
def venus : Body :=
  { name := "venus", orbitRadius := 12, startAngle := 2.2, orbitSpeed := 0.7,
    tilt := 0.03, yOffset := -0.1, scale := 0.9,
    textureUrl := "/textures/venus.jpg" }

/-- Catalog entry 3. -/
def earth : Body :=
  { name := "earth", orbitRadius := 16, startAngle := 1.2, orbitSpeed := 0.6,
    tilt := 0.04, yOffset := 0.25, scale := 1,
    textureUrl := "/textures/earth.jpg" }

/-- Catalog entry 4. -/
def mars : Body :=
  { name := "mars", orbitRadius := 20, startAngle := 0.9, orbitSpeed := 0.5,
    tilt := 0.02, yOffset := -0.15, scale := 0.78,
    textureUrl := "/textures/mars.jpg" }

/-- Catalog entry 5. -/
def jupiter : Body :=
  { name := "jupiter", orbitRadius := 28, startAngle := 2.7, orbitSpeed := 0.35,
    tilt := 0.012, yOffset := 0.5, scale := 2.2,
    textureUrl := "/textures/jupiter.jpg" }

/-- Catalog entry 6. -/
def saturn : Body :=
  { name := "saturn", orbitRadius := 36, startAngle := 1.6, orbitSpeed := 0.3,
    tilt := 0.05, yOffset := 0.4, scale := 1.85,
    textureUrl := "/textures/saturn.jpg", hasRing := true }

/-- Catalog entry 7. -/
def uranus : Body :=
  { name := "uranus", orbitRadius := 44, startAngle := 2.8, orbitSpeed := 0.24,
    tilt := 0.08, yOffset := 0.35, scale := 1.42,
    textureUrl := "/textures/uranus.jpg" }

/-- Catalog entry 8. -/
def neptune : Body :=
  { name := "neptune", orbitRadius := 52, startAngle := 0.3, orbitSpeed := 0.18,
    tilt := 0.12, yOffset := 0.28, scale := 1.32,
    textureUrl := "/textures/neptune.jpg" }

/-- The static planet catalog of `Scene` (App.jsx lines 161-257), in source
order. It is a plain constant: nothing in the program mutates it. -/
def planets : List Body :=
  [sun, mercury, venus, earth, mars, jupiter, saturn, uranus, neptune]

/-- One camera keyframe (a `stops` entry, App.jsx lines 275-279). -/
structure Stop where
  look : Vec3
  pos : Vec3
deriving DecidableEq

/-- Fallback stop used only as the `getD` default; never selected for an
index inside the list. -/
def stop0 : Stop := ⟨⟨0, 0, 0⟩, ⟨0, 0, 0⟩⟩

/-- Build the camera keyframe for catalog index `idx` (App.jsx lines 275-279):
`look = [orbitRadius, yOffset, 0]`,
`pos = [orbitRadius+3, yOffset+2, idx < 2 ? 10 - idx*4 : -6]`. -/
def mkStop (idx : ℕ) (p : Body) : Stop :=
  { look := ⟨p.orbitRadius, p.yOffset, 0⟩,
    pos := ⟨p.orbitRadius + 3, p.yOffset + 2,
            if idx < 2 then 10 - (idx : ℚ) * 4 else -6⟩ }

/-- Index-passing worker for `stops`: builds `mkStop idx b` for each body,
mirroring the index parameter of the JS `map` callback. -/
def stopsFrom (idx : ℕ) : List Body → List Stop
  | [] => []
  | b :: bs => mkStop idx b :: stopsFrom (idx + 1) bs

/-- The `stops` array: one keyframe per body, in catalog order. -/
def stops (bodies : List Body) : List Stop := stopsFrom 0 bodies

/-- The keyframes actually built by `Scene` from the static catalog. -/
def appStops : List Stop := stops planets

/-- Initial camera position set before the timeline is built
(`camera.position.set(-8, 3, 18)`, App.jsx line 260). -/
def camInit : Vec3 := ⟨-8, 3, 18⟩

/-- Clamp a scroll progress value to [0,1], as the scrubbed ScrollTrigger
does (its progress is the scroll offset clamped between `start` and `end`,
normalized by the total scroll distance). -/
def clamp01 (p : ℚ) : ℚ := max 0 (min p 1)

/-- Floor of a nonnegative rational as a natural number; agrees with
`(⌊t⌋).toNat` for `0 ≤ t` (used only on clamped, hence nonnegative, times). -/
def ratFloorNat (t : ℚ) : ℕ := t.num.toNat / t.den

/-- Index of the timeline segment active at timeline time `t` of a timeline
with `n` unit-length segments: the floor of `t` clamped to the last segment. -/
def segIndex (n : ℕ) (t : ℚ) : ℕ := min (ratFloorNat t) (n - 1)

/-- Start position of segment `i`: the initial camera position for segment 0,
otherwise the destination of the tween of the previous segment. -/
def segStart (init : Vec3) (ss : List Stop) (i : ℕ) : Vec3 :=
  if i = 0 then init else (ss.getD (i - 1) stop0).pos

/-- Camera position inside segment `i` at local time `τ ∈ [0,1]`:
the tween interpolates from the segment start position to `ss[i].pos`
through the `power2.inOut` curve. -/
def segPos (init : Vec3) (ss : List Stop) (i : ℕ) (τ : ℚ) : Vec3 :=
  lerpV (segStart init ss i) (ss.getD i stop0).pos (easeInOut τ)

/-- The pose produced by the scrubbed GSAP timeline of `Scene`
(App.jsx lines 263-295) at scroll progress `p`.

The timeline holds one unit-duration position tween per stop, tween `i`
placed at time `i`, so the total duration is `N = ss.length` and progress
maps linearly onto N equal segments. The parallel look-at tween of
segment `i` calls `camera.lookAt(ss[i].look)` on update, so the look
target is the destination look of the active segment, constant over the
segment. With no stops the camera keeps its initial position and the
initial `camera.lookAt(0, 0, 0)` of line 261. -/
def timelinePose (init : Vec3) (ss : List Stop) (p : ℚ) : Pose :=
  if ss.isEmpty then ⟨init, ⟨0, 0, 0⟩⟩
  else
    let n := ss.length
    let t := clamp01 p * n
    let i := segIndex n t
    ⟨segPos init ss i (t - i), (ss.getD i stop0).look⟩

/-- Per-frame orbital advance of one orbit group (App.jsx lines 303-308):
the rotation is incremented by `orbitSpeed * delta` only when `orbitSpeed`
is truthy, i.e. nonzero. -/
def orbitStep (b : Body) (angle delta : ℚ) : ℚ :=
  if b.orbitSpeed ≠ 0 then angle + b.orbitSpeed * delta else angle

/-- Orbit-group rotation of body `b` after the frame loop has run with the
given list of frame deltas, starting from the initial group rotation
`startAngle` (App.jsx line 330). -/
def currentAngle (b : Body) (deltas : List ℚ) : ℚ :=
  deltas.foldl (orbitStep b) b.startAngle

/-- Per-frame self-rotation step of a planet mesh (App.jsx lines 109-113):
`rotation.y += 0.0014`, ignoring the frame delta and every body parameter. -/
def meshSpinStep (r : ℚ) (_delta : ℚ) : ℚ := r + 0.0014

/-- Mesh self-rotation after the frame loop has run with the given list of
frame deltas, starting from rotation `r0`. -/
def meshSpin (r0 : ℚ) (deltas : List ℚ) : ℚ := deltas.foldl meshSpinStep r0

/-- One orbit group of the rendered scene graph (App.jsx lines 324-341):
group rotation `[tilt, startAngle, 0]`, mesh position
`[orbitRadius, yOffset, 0]`, mesh scale, optional ring. -/
structure GroupNode where
  rotation : Vec3
  planetPos : Vec3
  scale : ℚ
  hasRing : Bool
deriving DecidableEq

/-- Scene construction (App.jsx lines 315-344): one orbit group is built
per catalog entry, unconditionally — the code contains no catalog
validation and no failure path. The `Option` result models the
possibility of refusing to construct (a startup failure); the code never
returns `none`. -/
def sceneConstruct (bodies : List Body) : Option (List GroupNode) :=
  some (bodies.map fun p =>
    { rotation := ⟨p.tilt, p.startAngle, 0⟩,
      planetPos := ⟨p.orbitRadius, p.yOffset, 0⟩,
      scale := p.scale,
      hasRing := p.hasRing })

/-- The two viewing modes named by the spec. -/
inductive ViewMode where
  | scrollDriven
  | fixedOverhead
deriving DecidableEq

/-- Modelled from the spec: the View Mode Controller of spec section 4.5 is
absent from src/ (no toggle signal, no FIXED_OVERHEAD pose exists in
App.jsx). Controller state: the current mode and the scroll progress,
which the spec says is preserved while in FIXED_OVERHEAD and resumed on
re-entry with no forced reset. -/
structure ViewState where
  mode : ViewMode
  progress : ℚ
deriving DecidableEq

/-- Modelled from the spec: the user-triggered toggle transition —
bidirectional, no guard conditions, and it does not touch the stored
scroll progress. -/
def toggleView (s : ViewState) : ViewState :=
  { s with mode := match s.mode with
      | .scrollDriven => .fixedOverhead
      | .fixedOverhead => .scrollDriven }

/-- Modelled from the spec: the constant overhead pose forced while in
FIXED_OVERHEAD, looking straight down at the system center. -/
def overheadPose : Pose := ⟨⟨0, 60, 0⟩, ⟨0, 0, 0⟩⟩

/-- Modelled from the spec: camera pose under the current view mode — the
scroll timeline is consulted in SCROLL_DRIVEN and ignored in
FIXED_OVERHEAD. -/
def viewPose (s : ViewState) : Pose :=
  match s.mode with
  | .scrollDriven => timelinePose camInit appStops s.progress
  | .fixedOverhead => overheadPose

/-- Choreography-engine resources owned by the `Scene` effect: whether the
timeline/scroll-trigger bindings are alive, and the last camera pose
written. The cleanup of App.jsx lines 297-300 kills the timeline and
every ScrollTrigger, after which progress updates no longer drive the
camera. -/
structure Engine where
  active : Bool
  pose : Pose
deriving DecidableEq

/-- The teardown operation (the effect cleanup, App.jsx lines 297-300):
releases the timeline and scroll-trigger bindings. Killing an already
killed timeline is a no-op, so the model only clears the active flag. -/
def teardown (e : Engine) : Engine := { e with active := false }

/-- A scroll progress signal arriving at the engine: while the bindings are
alive the scrubbed timeline writes the pose for the new progress; after
teardown the signal has no effect. -/
def signalProgress (e : Engine) (p : ℚ) : Engine :=
  if e.active then { e with pose := timelinePose camInit appStops p } else e

/-- Executable check that a list of rationals is strictly increasing. -/
def strictlyIncreasing : List ℚ → Bool
  | [] => true
  | [_] => true
  | a :: b :: rest => decide (a < b) && strictlyIncreasing (b :: rest)

/-- Executable check that a list of names has no duplicates. -/
def namesUnique : List String → Bool
  | [] => true
  | n :: rest => !rest.contains n && namesUnique rest

/-! ### Helper lemmas -/

lemma lerpQ_zero (a b : ℚ) : lerpQ a b 0 = a := by unfold lerpQ; ring

lemma lerpQ_one (a b : ℚ) : lerpQ a b 1 = b := by unfold lerpQ; ring

lemma lerpV_zero (a b : Vec3) : lerpV a b 0 = a := by
  unfold lerpV; rw [lerpQ_zero, lerpQ_zero, lerpQ_zero]

lemma lerpV_one (a b : Vec3) : lerpV a b 1 = b := by
  unfold lerpV; rw [lerpQ_one, lerpQ_one, lerpQ_one]

lemma easeInOut_zero : easeInOut 0 = 0 := by norm_num [easeInOut]

lemma easeInOut_one : easeInOut 1 = 1 := by norm_num [easeInOut]

lemma clamp01_of_mem (p : ℚ) (h0 : 0 ≤ p) (h1 : p ≤ 1) : clamp01 p = p := by
  unfold clamp01; rw [min_eq_left h1, max_eq_right h0]

lemma clamp01_of_nonpos (p : ℚ) (h : p ≤ 0) : clamp01 p = 0 := by
  unfold clamp01
  rw [min_eq_left (h.trans (by norm_num)), max_eq_left h]

lemma clamp01_of_one_le (p : ℚ) (h : 1 ≤ p) : clamp01 p = 1 := by
  unfold clamp01; rw [min_eq_right h, max_eq_right (by norm_num)]

lemma ratFloorNat_eq_floor (t : ℚ) (h : 0 ≤ t) : (ratFloorNat t : ℤ) = ⌊t⌋ := by
  have hn : 0 ≤ t.num := Rat.num_nonneg.mpr h
  rw [Rat.floor_def]
  unfold ratFloorNat
  calc ((t.num.toNat / t.den : ℕ) : ℤ)
      = (t.num.toNat : ℤ) / (t.den : ℤ) := Int.ofNat_ediv _ _
    _ = t.num / (t.den : ℤ) := by rw [Int.toNat_of_nonneg hn]

lemma ratFloorNat_natCast (n : ℕ) : ratFloorNat (n : ℚ) = n := by
  have h := ratFloorNat_eq_floor (n : ℚ) (by positivity)
  rw [Int.floor_natCast] at h
  exact_mod_cast h

lemma ratFloorNat_nat_add (i : ℕ) (τ : ℚ) (h0 : 0 ≤ τ) (h1 : τ < 1) :
    ratFloorNat ((i : ℚ) + τ) = i := by
  have h := ratFloorNat_eq_floor ((i : ℚ) + τ) (by positivity)
  rw [Int.floor_nat_add, Int.floor_eq_zero_iff.mpr (Set.mem_Ico.mpr ⟨h0, h1⟩),
    add_zero] at h
  exact_mod_cast h

lemma timelinePose_eq (init : Vec3) (ss : List Stop) (h : ss ≠ []) (p : ℚ) :
    timelinePose init ss p =
      ⟨segPos init ss (segIndex ss.length (clamp01 p * ss.length))
          (clamp01 p * ss.length -
            (segIndex ss.length (clamp01 p * ss.length) : ℚ)),
        (ss.getD (segIndex ss.length (clamp01 p * ss.length)) stop0).look⟩ := by
  cases ss with
  | nil => exact absurd rfl h
  | cons a as => rfl

lemma timelinePose_congr (init : Vec3) (ss : List Stop) {p q : ℚ}
    (h : clamp01 p = clamp01 q) :
    timelinePose init ss p = timelinePose init ss q := by
  unfold timelinePose
  rw [h]

lemma timelinePose_seg (init : Vec3) (ss : List Stop) (i : ℕ) (τ : ℚ)
    (hi : i < ss.length) (h0 : 0 ≤ τ) (h1 : τ < 1) :
    timelinePose init ss (((i : ℚ) + τ) / ss.length) =
      ⟨segPos init ss i τ, (ss.getD i stop0).look⟩ := by
  have hne : ss ≠ [] := by
    intro e; rw [e] at hi; simp at hi
  have hn0 : (0 : ℚ) < ss.length := by
    have : 0 < ss.length := lt_of_le_of_lt (Nat.zero_le i) hi
    exact_mod_cast this
  have hsucc : (i : ℚ) + 1 ≤ ss.length := by exact_mod_cast hi
  have hge : 0 ≤ ((i : ℚ) + τ) / ss.length := by positivity
  have hle : ((i : ℚ) + τ) / ss.length ≤ 1 := by
    rw [div_le_one hn0]; linarith
  rw [timelinePose_eq init ss hne, clamp01_of_mem _ hge hle,
    div_mul_cancel₀ _ (ne_of_gt hn0)]
  have hseg : segIndex ss.length ((i : ℚ) + τ) = i := by
    unfold segIndex
    rw [ratFloorNat_nat_add i τ h0 h1]
    exact min_eq_left (by omega)
  rw [hseg, add_sub_cancel_left]

lemma timelinePose_zero (init : Vec3) (ss : List Stop) (h : ss ≠ []) :
    timelinePose init ss 0 = ⟨init, (ss.getD 0 stop0).look⟩ := by
  have hlen : 0 < ss.length := List.length_pos.mpr h
  have h0 := timelinePose_seg init ss 0 0 hlen le_rfl (by norm_num)
  rw [show (((0 : ℕ) : ℚ) + 0) / (ss.length : ℚ) = 0 by simp] at h0
  rw [h0]
  unfold segPos segStart
  rw [easeInOut_zero, lerpV_zero, if_pos rfl]

lemma timelinePose_one (init : Vec3) (ss : List Stop) (h : ss ≠ []) :
    timelinePose init ss 1 =
      ⟨(ss.getD (ss.length - 1) stop0).pos,
        (ss.getD (ss.length - 1) stop0).look⟩ := by
  have hlen : 0 < ss.length := List.length_pos.mpr h
  rw [timelinePose_eq init ss h, clamp01_of_mem 1 (by norm_num) le_rfl, one_mul]
  have hseg : segIndex ss.length (ss.length : ℚ) = ss.length - 1 := by
    unfold segIndex
    rw [ratFloorNat_natCast]
    exact min_eq_right (by omega)
  rw [hseg]
  have hcast : ((ss.length - 1 : ℕ) : ℚ) = (ss.length : ℚ) - 1 := by
    have h1 : 1 ≤ ss.length := hlen
    push_cast [Nat.cast_sub h1]
    ring
  have hτ : (ss.length : ℚ) - ((ss.length - 1 : ℕ) : ℚ) = 1 := by
    rw [hcast]; ring
  rw [hτ]
  unfold segPos
  rw [easeInOut_one, lerpV_one]

lemma orbitStep_eq (b : Body) (a d : ℚ) :
    orbitStep b a d = a + b.orbitSpeed * d := by
  unfold orbitStep
  split
  · rfl
  · rename_i h
    rw [not_not] at h
    rw [h]; ring

lemma foldl_orbitStep (b : Body) (a : ℚ) (ds : List ℚ) :
    ds.foldl (orbitStep b) a = a + b.orbitSpeed * ds.sum := by
  induction ds generalizing a with
  | nil => simp
  | cons d ds ih =>
    rw [List.foldl_cons, ih, orbitStep_eq, List.sum_cons]
    ring

lemma sum_one_one_eq_sum_two : ([1, 1] : List ℚ).sum = ([2] : List ℚ).sum := by
  norm_num

/-! ### Claims -/

/-- C1 (amended). The scrubbed timeline maps progress onto N equal-length
segments, one per keyframe: at progress `(i + τ)/N` with `τ ∈ [0,1)` the
camera position is the `power2.inOut` interpolation of segment `i` and the
look target is the destination look of keyframe `i`. The pose at
progress 1 equals keyframe `N-1` exactly, but the pose at progress 0 has
the initial camera position (segment 0 tweens from the pre-timeline
camera position toward keyframe 0), with the look target of keyframe 0. -/
theorem scroll_timeline_endpoints (init : Vec3) (ss : List Stop)
    (h : ss ≠ []) :
    timelinePose init ss 0 = ⟨init, (ss.getD 0 stop0).look⟩ ∧
    timelinePose init ss 1 =
      ⟨(ss.getD (ss.length - 1) stop0).pos,
        (ss.getD (ss.length - 1) stop0).look⟩ ∧
    ∀ i : ℕ, ∀ τ : ℚ, i < ss.length → 0 ≤ τ → τ < 1 →
      timelinePose init ss (((i : ℚ) + τ) / ss.length) =
        ⟨segPos init ss i τ, (ss.getD i stop0).look⟩ :=
  ⟨timelinePose_zero init ss h, timelinePose_one init ss h,
    fun i τ hi h0 h1 => timelinePose_seg init ss i τ hi h0 h1⟩

/-- C1 witness: the amended statement instantiated on the keyframes the
app builds, with the segment clause taken at segment 2, local time 0. -/
theorem scroll_timeline_endpoints_check :
    timelinePose camInit appStops 0 = ⟨camInit, (appStops.getD 0 stop0).look⟩ ∧
    timelinePose camInit appStops 1 =
      ⟨(appStops.getD (appStops.length - 1) stop0).pos,
        (appStops.getD (appStops.length - 1) stop0).look⟩ ∧
    timelinePose camInit appStops ((((2 : ℕ) : ℚ) + 0) / appStops.length) =
      ⟨segPos camInit appStops 2 0, (appStops.getD 2 stop0).look⟩ :=
  ⟨(scroll_timeline_endpoints camInit appStops (by decide)).1,
    (scroll_timeline_endpoints camInit appStops (by decide)).2.1,
    (scroll_timeline_endpoints camInit appStops (by decide)).2.2 2 0
      (by decide) le_rfl (by decide)⟩

/-- C1 counterexample: the pose at progress 0 is not keyframe 0 — the
camera is still at its initial position (-8, 3, 18), not at the keyframe-0
position (3, 2, 10). -/
theorem scroll_timeline_start_ne_first_keyframe :
    timelinePose camInit appStops 0 ≠
      ⟨(appStops.getD 0 stop0).pos, (appStops.getD 0 stop0).look⟩ := by
  rw [timelinePose_zero camInit appStops (by decide)]
  intro h
  have hx := congrArg (fun q => q.position.x) h
  simp only [camInit, appStops, stops, stopsFrom, planets, sun, mkStop,
    List.getD_cons_zero] at hx
  norm_num at hx

/-- C2 (amended). The camera position is continuous across segment
boundaries: the end of segment `i` and the start of segment `i+1` are both
the keyframe-`i` position, and the pose at boundary progress `(i+1)/N` has
that position. The look target, however, is not interpolated: it is held
at the destination look of the active segment, so at the boundary it has
already jumped to the look of keyframe `i+1`. -/
theorem scroll_position_continuous (init : Vec3) (ss : List Stop) (i : ℕ)
    (h : i + 1 < ss.length) :
    segPos init ss i 1 = (ss.getD i stop0).pos ∧
    segPos init ss (i + 1) 0 = (ss.getD i stop0).pos ∧
    timelinePose init ss (((i + 1 : ℕ) : ℚ) / ss.length) =
      ⟨(ss.getD i stop0).pos, (ss.getD (i + 1) stop0).look⟩ := by
  have h1 : segPos init ss i 1 = (ss.getD i stop0).pos := by
    unfold segPos
    rw [easeInOut_one, lerpV_one]
  have h2 : segPos init ss (i + 1) 0 = (ss.getD i stop0).pos := by
    unfold segPos segStart
    rw [easeInOut_zero, lerpV_zero, if_neg (Nat.succ_ne_zero i)]
    simp
  refine ⟨h1, h2, ?_⟩
  have hseg := timelinePose_seg init ss (i + 1) 0 h le_rfl (by norm_num)
  rw [add_zero] at hseg
  rw [hseg, h2]

/-- C2 witness: the amended statement at the app keyframes, boundary
between segments 0 and 1. -/
theorem scroll_position_continuous_check :
    segPos camInit appStops 0 1 = (appStops.getD 0 stop0).pos ∧
    segPos camInit appStops 1 0 = (appStops.getD 0 stop0).pos ∧
    timelinePose camInit appStops (((0 + 1 : ℕ) : ℚ) / appStops.length) =
      ⟨(appStops.getD 0 stop0).pos, (appStops.getD 1 stop0).look⟩ :=
  scroll_position_continuous camInit appStops 0 (by decide)

/-- C2 counterexample: at the boundary progress `1/(N-1) = 1/8` named by the
claim (N = 9 keyframes), the pose does not equal keyframe 1 — in the code
segmentation that progress lies inside segment 1, where the position is
still being interpolated toward keyframe 1 and differs from it. -/
theorem scroll_boundary_pose_counterexample :
    timelinePose camInit appStops (1/8) ≠
      ⟨(appStops.getD 1 stop0).pos, (appStops.getD 1 stop0).look⟩ := by
  have hlen : appStops.length = 9 := by decide
  have hp : (1/8 : ℚ) = (((1 : ℕ) : ℚ) + 1/8) / appStops.length := by
    rw [hlen]; norm_num
  rw [hp, timelinePose_seg camInit appStops 1 (1/8) (by decide) (by norm_num)
    (by norm_num)]
  intro h
  have hx := congrArg (fun q => q.position.x) h
  simp only [segPos, segStart, appStops, stops, stopsFrom, planets, sun,
    mercury, mkStop, List.getD_cons_zero, List.getD_cons_succ, lerpV, lerpQ,
    easeInOut] at hx
  norm_num at hx

/-- C3. Out-of-range progress is clamped, never extrapolated: for every
keyframe list, every progress below 0 yields the pose at 0 and every
progress above 1 yields the pose at 1, with no error path. -/
theorem scroll_progress_clamped (init : Vec3) (ss : List Stop) (p : ℚ) :
    (p < 0 → timelinePose init ss p = timelinePose init ss 0) ∧
    (1 < p → timelinePose init ss p = timelinePose init ss 1) := by
  constructor
  · intro hp
    exact timelinePose_congr init ss
      (by rw [clamp01_of_nonpos p hp.le, clamp01_of_nonpos 0 le_rfl])
  · intro hp
    exact timelinePose_congr init ss
      (by rw [clamp01_of_one_le p hp.le, clamp01_of_one_le 1 le_rfl])

/-- C3 witness: clamping at progress -1 and 2 on the app keyframes. -/
theorem scroll_progress_clamped_check :
    timelinePose camInit appStops (-1) = timelinePose camInit appStops 0 ∧
    timelinePose camInit appStops 2 = timelinePose camInit appStops 1 :=
  ⟨(scroll_progress_clamped camInit appStops (-1)).1 (by decide),
    (scroll_progress_clamped camInit appStops 2).2 (by decide)⟩

/-- C4. The orbital angle after any frame sequence equals
`startAngle + orbitSpeed * t` where `t` is the summed elapsed time — on
the nose, hence also modulo 2π as an angle (the code stores the
unreduced value). At `t = 0` (no frames) the angle is `startAngle`, and a
body with `orbitSpeed = 0` keeps `startAngle` forever, since the frame
callback skips bodies whose speed is falsy. -/
theorem orbit_angle_formula (b : Body) (deltas : List ℚ) :
    currentAngle b deltas = b.startAngle + b.orbitSpeed * deltas.sum ∧
    currentAngle b [] = b.startAngle ∧
    (b.orbitSpeed = 0 → currentAngle b deltas = b.startAngle) := by
  refine ⟨foldl_orbitStep b b.startAngle deltas, by simp [currentAngle],
    fun h => ?_⟩
  rw [currentAngle, foldl_orbitStep, h]
  ring

/-- C4 witness: the zero-speed clause at the stationary anchor body. -/
theorem orbit_angle_formula_check :
    currentAngle sun [1] = sun.startAngle :=
  (orbit_angle_formula sun [1]).2.2 (by decide)

/-- C5. The orbit advance is deterministic and stateless: the resulting
angle depends only on the body parameters and the total elapsed time, not
on how the frame loop sliced it or on any hidden counter — two runs whose
frame deltas sum to the same elapsed seconds produce the same angle for
every body. -/
theorem orbit_advance_deterministic (b : Body) (d1 d2 : List ℚ)
    (h : d1.sum = d2.sum) :
    currentAngle b d1 = currentAngle b d2 := by
  unfold currentAngle
  rw [foldl_orbitStep, foldl_orbitStep, h]

/-- C5 witness: two frames of 1s each agree with one frame of 2s. -/
theorem orbit_advance_deterministic_check :
    currentAngle mercury [1, 1] = currentAngle mercury [2] :=
  orbit_advance_deterministic mercury [1, 1] [2] sum_one_one_eq_sum_two

/-- C6. Catalog invariants: exactly one body (the sun) has
`orbitRadius = 0`, the radii of the remaining bodies are strictly
increasing in catalog order, and body names are unique. The catalog is a
constant built once (a `useMemo` with empty dependencies); nothing in the
program mutates it. -/
theorem catalog_invariants :
    (planets.filter (fun b => b.orbitRadius == 0)).length = 1 ∧
    strictlyIncreasing
      ((planets.filter (fun b => !(b.orbitRadius == 0))).map
        (fun b => b.orbitRadius)) = true ∧
    namesUnique (planets.map (fun b => b.name)) = true := by
  decide

/-- C7 counterexample: a malformed catalog — two bodies both named "sun",
both with `orbitRadius = 0` — still constructs a scene; the code has no
ConfigurationError path and performs no validation. -/
theorem scene_construct_counterexample :
    (sceneConstruct [sun, sun]).isSome = true := rfl

/-- C7 (amended). Scene construction performs no catalog validation and
succeeds for every catalog, malformed ones included; well-formedness of
the rendered scene rests solely on the static catalog satisfying the
invariants (which it does, see the catalog-invariants theorem). -/
theorem scene_construct_always_succeeds (bodies : List Body) :
    (sceneConstruct bodies).isSome = true := rfl

/-- C8. View-mode toggling is a round trip: starting in SCROLL_DRIVEN at
any progress, toggling to FIXED_OVERHEAD and back restores the exact
state, and the resulting camera pose is the scroll-timeline pose at the
preserved progress. (The controller is modelled from the spec; src/ has
no view-mode code.) -/
theorem view_mode_round_trip (p : ℚ) :
    toggleView (toggleView ⟨ViewMode.scrollDriven, p⟩) =
      ⟨ViewMode.scrollDriven, p⟩ ∧
    viewPose (toggleView (toggleView ⟨ViewMode.scrollDriven, p⟩)) =
      timelinePose camInit appStops p :=
  ⟨rfl, rfl⟩

/-- C9. Teardown is idempotent and final: tearing down twice equals
tearing down once (killing a killed timeline is a no-op, and the model is
a total function — no error), and after teardown a progress signal leaves
the engine, in particular its camera pose, unchanged. -/
theorem teardown_idempotent (e : Engine) (p : ℚ) :
    teardown (teardown e) = teardown e ∧
    signalProgress (teardown e) p = teardown e := by
  refine ⟨rfl, ?_⟩
  simp [signalProgress, teardown]

/-- C10. Every planet mesh — the stationary sun included — advances its
self-rotation by exactly 0.0014 radians per rendered frame: after any
frame sequence the rotation is `r0 + frameCount * 0.0014`, depending only
on the number of frames, never on the frame deltas (elapsed time) or on
any body parameter such as `orbitSpeed`. -/
theorem planet_self_spin (r0 : ℚ) (deltas : List ℚ) :
    meshSpin r0 deltas = r0 + (deltas.length : ℚ) * 0.0014 := by
  induction deltas generalizing r0 with
  | nil => simp [meshSpin]
  | cons d ds ih =>
    have hstep : meshSpin r0 (d :: ds) = meshSpin (r0 + 0.0014) ds := rfl
    rw [hstep, ih, List.length_cons]
    push_cast
    ring
